import Mathlib

/-
Shallow embedding of the wave / wave-section core of the R3D2 repository
(src/r3d2/wave.py, src/r3d2/swe/swe_wave.py), together with models of the
external collaborators the core consumes: the equation-of-state capability,
the State data type (r3d2/state.py is not part of the shown source, so it is
modelled from the spec), and the scipy numeric primitives (brentq, odeint).

Conventions of the embedding:
  * Python floats are modelled as rationals; numpy.allclose is modelled
    exactly (|a - b| <= atol + rtol * |b| with rtol = 1e-5, atol = 1e-8).
  * Failing constructions (assert failures, missing dictionary keys,
    missing attributes, type errors from duck typing) are modelled as
    Except values carrying an error kind.
  * The unbounded while-loop widening the shock-adiabat bracket is modelled
    with an explicit fuel parameter; running out of fuel while the loop
    condition still holds is the fuelOut error (the Python code would still
    be looping at that point).
  * The scipy primitives and numpy.sqrt are external: they are fields of a
    Numerics structure that every solver takes as a parameter, exactly as
    the Python code calls into scipy/numpy.
-/

namespace R3D2

/-- Error kinds a construction can fail with: Python assert failures,
duck-typing TypeErrors, missing dict keys, missing attributes, and the
fuel-exhaustion marker for the unbounded bracket-widening loop. -/
inductive Err where
  | assertionError : Err
  | typeError : Err
  | keyError : Err
  | attributeError : Err
  | valueError : Err
  | fuelOut : Err
deriving DecidableEq, Repr

/-- External numeric primitives (numpy.sqrt, scipy.optimize.brentq,
scipy.integrate.odeint), consumed but never implemented by the core. -/
structure Numerics where
  sqrt : ℚ → ℚ
  brentq : (ℚ → Except Err ℚ) → ℚ → ℚ → Except Err ℚ
  odeint3 : ((ℚ × ℚ × ℚ) → ℚ → (ℚ × ℚ × ℚ)) → (ℚ × ℚ × ℚ) → ℚ → ℚ → (ℚ × ℚ × ℚ)
  odeint1 : (ℚ → ℚ → ℚ) → ℚ → ℚ → ℚ → ℚ

/-- Modelled from the spec: the named closure functions of an
equation-of-state capability that the core invokes (r3d2's eos
dictionaries; the eos construction code is not part of the shown source).
Every field is a function of two scalars. -/
structure EOSBase where
  p_from_rho_eps : ℚ → ℚ → ℚ
  h_from_rho_eps : ℚ → ℚ → ℚ
  cs_from_rho_eps : ℚ → ℚ → ℚ
  t_from_rho_eps : ℚ → ℚ → ℚ
  h_from_rho_p : ℚ → ℚ → ℚ

/-- Modelled from the spec: the reaction-support extension of an EOS
capability: the reactive marker (q_available), the ignition temperature,
and the inert (burned-product) EOS. The progress-variable supplier q_of
models how a constructed State obtains its reactive progress variable from
the capability (state.py is not part of the shown source). -/
structure Reactive where
  q_of : ℚ → ℚ → ℚ
  t_ignition : ℚ
  eos_inert : EOSBase

/-- An equation-of-state capability: the base closures plus the optional
reaction support.  reactive = none models a dictionary without the
q_available key (the inert strategy test in Wave.__init__). -/
structure EOS where
  base : EOSBase
  reactive : Option Reactive

/-- Modelled from the spec: one admissible physical state (r3d2/state.py is
not part of the shown source).  Primary variables rho, v, vt, eps, the
reactive progress variable q, and the EOS capability reference. -/
structure State where
  rho : ℚ
  v : ℚ
  vt : ℚ
  eps : ℚ
  q : ℚ
  eos : EOS

/-- Modelled from the spec: the State constructor derives the reactive
progress variable from the EOS capability (zero for an inert capability).
All State constructions inside the solvers go through mkState. -/
def mkState (eos : EOS) (rho v vt eps : ℚ) : State :=
  ⟨rho, v, vt, eps, (match eos.reactive with
    | some r => r.q_of rho eps
    | none => 0), eos⟩

/-- Modelled from the spec: derived pressure, from primary variables and
the EOS, recomputed on demand. -/
def State.p (s : State) : ℚ := s.eos.base.p_from_rho_eps s.rho s.eps

/-- Modelled from the spec: derived specific enthalpy. -/
def State.h (s : State) : ℚ := s.eos.base.h_from_rho_eps s.rho s.eps

/-- Modelled from the spec: derived local sound speed. -/
def State.cs (s : State) : ℚ := s.eos.base.cs_from_rho_eps s.rho s.eps

/-- Derived temperature, via the t_from_rho_eps closure of the state's own
EOS (as used in wave.py for ignition tests). -/
def State.t (s : State) : ℚ := s.eos.base.t_from_rho_eps s.rho s.eps

/-- Modelled from the spec: the Lorentz factor 1/sqrt(1 - v^2 - vt^2),
through the external sqrt primitive. -/
def State.W_lorentz (num : Numerics) (s : State) : ℚ :=
  1 / num.sqrt (1 - s.v ^ 2 - s.vt ^ 2)

/-- Modelled from the spec: the family-indexed characteristic speed.
Wavenumber 1 returns the normal velocity; wavenumbers 0 and 2 return the
signed acoustic characteristic speed built from the local sound speed, the
Lorentz factor and the tangential-velocity correction. -/
def State.wavespeed (num : Numerics) (s : State) (wavenumber : ℕ) : ℚ :=
  if wavenumber = 1 then s.v
  else
    let cs := s.cs
    let lr : ℚ := (wavenumber : ℚ) - 1
    (s.v * (1 - cs ^ 2) +
        lr * cs * num.sqrt ((1 - s.v ^ 2 - s.vt ^ 2) * (1 - s.v ^ 2 - s.vt ^ 2 * cs ^ 2))) /
      (1 - (s.v ^ 2 + s.vt ^ 2) * cs ^ 2)

/-- Modelled from the spec: reconstruction of the tangential velocity of a
new (rho, v, eps) state from the known state's conserved
tangential-momentum-like quantity h * W * vt. -/
def State.vt_from_known (num : Numerics) (q : State) (rho v eps : ℚ) : ℚ :=
  let p := q.eos.base.p_from_rho_eps rho eps
  let h := q.eos.base.h_from_rho_p rho p
  let K := q.h * q.W_lorentz num * q.vt
  K * num.sqrt (1 - v ^ 2) / num.sqrt (h ^ 2 + K ^ 2)

/-- Model of numpy.allclose on scalars: |a - b| <= atol + rtol * |b| with
numpy's defaults rtol = 1e-5 and atol = 1e-8. -/
def isclose (a b : ℚ) : Bool :=
  decide (|a - b| ≤ 1 / 10 ^ 8 + (1 / 10 ^ 5) * |b|)

/-- The right-hand side of the self-similar rarefaction ODE
(wave.py, rarefaction_dwdp): derivative of (rho, v, eps) with respect to
the pressure path variable, with the tangential-velocity correction factor
g = vt^2 (xi^2 - 1)/(1 - xi v)^2. -/
def rarefaction_dwdp (num : Numerics) (q_known : State) (wavenumber : ℕ)
    (w : ℚ × ℚ × ℚ) (_p : ℚ) : ℚ × ℚ × ℚ :=
  let lr : ℚ := (wavenumber : ℚ) - 1
  let rho := w.1
  let v := w.2.1
  let eps := w.2.2
  let vt := State.vt_from_known num q_known rho v eps
  let local_state := mkState q_known.eos rho v vt eps
  let cs := local_state.cs
  let h := local_state.h
  let W_lorentz := local_state.W_lorentz num
  let xi := local_state.wavespeed num wavenumber
  let g := vt ^ 2 * (xi ^ 2 - 1) / (1 - xi * v) ^ 2
  (1 / (h * cs ^ 2),
   lr / (rho * h * W_lorentz ^ 2 * cs) / num.sqrt (1 + g),
   local_state.p / (rho ^ 2 * h * cs ^ 2))

/-- The shock-adiabat residual of wave.py's mass_flux_squared, as a
function of the candidate post-shock density (target pressure held
fixed). -/
def shock_root_rho (q_start : State) (p_end : ℚ) (ueos : EOS) (rho : ℚ) : ℚ :=
  let h := ueos.base.h_from_rho_p rho p_end
  (h ^ 2 - q_start.h ^ 2) - (h / rho + q_start.h / q_start.rho) * (p_end - q_start.p)

/-- The geometric bracket-widening while-loop of mass_flux_squared: while
the residual has the same sign at both bracket ends, move the ends
outward by the fixed multiplicative factors.  The Python loop has no
iteration bound; the fuel parameter makes the model total, and running out
of fuel while the loop condition still holds (the Python code would still
be looping) is the fuelOut error. -/
def bracket_widen (root : ℚ → ℚ) (fmin fmax : ℚ → ℚ) :
    ℕ → ℚ → ℚ → Except Err (ℚ × ℚ)
  | 0, mn, mx =>
      if root mn * root mx > 0 then .error .fuelOut else .ok (mn, mx)
  | Nat.succ n, mn, mx =>
      if root mn * root mx > 0 then bracket_widen root fmin fmax n (fmin mn) (fmax mx)
      else .ok (mn, mx)

/-- wave.py, mass_flux_squared: solve the shock adiabat for the post-shock
density by widening a bracket geometrically until the residual changes
sign, refining with brentq, then return (j^2, rho, eps, dp). -/
def mass_flux_squared (num : Numerics) (fuel : ℕ) (q_start : State) (p_end : ℚ)
    (ueos : EOS) : Except Err (ℚ × ℚ × ℚ × ℚ) := do
  let root := shock_root_rho q_start p_end ueos
  let bracket ←
    if p_end ≥ q_start.p then
      bracket_widen root (fun x => x / (11 / 10)) (fun x => x * 10) fuel
        q_start.rho (num.sqrt (p_end / q_start.p) * q_start.rho)
    else
      bracket_widen root (fun x => x / 10) (fun x => x * (11 / 10)) fuel
        (num.sqrt (p_end / q_start.p) * q_start.rho) q_start.rho
  let rho ← num.brentq (fun r => .ok (root r)) bracket.1 bracket.2
  let h := ueos.base.h_from_rho_p rho p_end
  let eps := h - 1 - p_end / rho
  let dp := p_end - q_start.p
  let dh2 := h ^ 2 - q_start.h ^ 2
  let j2 := -dp / (dh2 / dp - 2 * q_start.h / q_start.rho)
  .ok (j2, rho, eps, dp)

/-- The front propagation speed obtained from the mass flux, as written
identically in Shock, Deflagration, Detonation and deflagration_root. -/
def front_speed (num : Numerics) (q : State) (lr j2 : ℚ) : ℚ :=
  let j := num.sqrt j2
  let W := q.W_lorentz num
  (q.rho ^ 2 * W ^ 2 * q.v +
      lr * j ^ 2 * num.sqrt (1 + q.rho ^ 2 * W ^ 2 * (1 - q.v ^ 2) / j ^ 2)) /
    (q.rho ^ 2 * W ^ 2 + j ^ 2)

/-- The post-front normal velocity from the momentum jump closed form, as
written identically in Shock, Deflagration, Detonation and
deflagration_root. -/
def post_velocity (num : Numerics) (q : State) (lr dp j2 vfront : ℚ) : ℚ :=
  let j := num.sqrt j2
  let W := q.W_lorentz num
  let Wf := 1 / num.sqrt (1 - vfront ^ 2)
  (q.h * W * q.v + lr * dp * Wf / j) /
    (q.h * W + dp * (1 / q.rho / W + lr * q.v * Wf / j))

/-- Assemble the post-front state (with tangential velocity reconstructed
from the known state) and the front speed from a mass_flux_squared
result. -/
def burned_state (num : Numerics) (q : State) (ueos : EOS) (lr : ℚ)
    (mfr : ℚ × ℚ × ℚ × ℚ) : State × ℚ :=
  let j2 := mfr.1
  let rho := mfr.2.1
  let eps := mfr.2.2.1
  let dp := mfr.2.2.2
  let vf := front_speed num q lr j2
  let v := post_velocity num q lr dp j2 vf
  let vt := State.vt_from_known num q rho v eps
  (mkState ueos rho v vt eps, vf)

/-- The variant identity of a wave section (the type tag of the Python
classes). -/
inductive Kind where
  | contact : Kind
  | rarefaction : Kind
  | shock : Kind
  | deflagration : Kind
  | detonation : Kind
deriving DecidableEq, Repr

/-- One wave section: variant tag, wavenumber, trivial flag, start and end
states, and the list of boundary propagation speeds. -/
structure WaveSectionT where
  kind : Kind
  wavenumber : ℕ
  trivial : Bool
  q_start : State
  q_end : State
  wavespeed : List ℚ

/-- wave.py, Contact.__init__: wavenumber must be 1, the single speed is
the shared velocity, and the two states must agree (numpy.allclose) in
velocity, pressure and wavespeed(wavenumber); the trivial flag is never
set to true by this constructor. -/
def Contact (num : Numerics) (q_start q_end : State) (wavenumber : ℕ) :
    Except Err WaveSectionT :=
  if wavenumber = 1 then
    if isclose q_start.v q_end.v
        && isclose q_start.p q_end.p
        && isclose (q_start.wavespeed num wavenumber) (q_end.wavespeed num wavenumber) then
      .ok ⟨.contact, wavenumber, false, q_start, q_end, [q_start.v]⟩
    else .error .assertionError
  else .error .assertionError

/-- wave.py, Rarefaction.__init__: wavenumber in {0,2} and
p_start >= p_end are asserted; the coincident-pressure case is trivial
with both reported speeds equal to the known characteristic speed;
otherwise the rarefaction ODE is integrated along the pressure path and
the speed pair is ordered by wavenumber. -/
def Rarefaction (num : Numerics) (q_start : State) (p_end : ℚ) (wavenumber : ℕ) :
    Except Err WaveSectionT :=
  if ¬(wavenumber = 0 ∨ wavenumber = 2) then .error .assertionError
  else if ¬(q_start.p ≥ p_end) then .error .assertionError
  else
    let v_known := q_start.wavespeed num wavenumber
    if isclose q_start.p p_end then
      .ok ⟨.rarefaction, wavenumber, true, q_start,
        mkState q_start.eos q_start.rho q_start.v q_start.vt q_start.eps,
        [v_known, v_known]⟩
    else
      let w := num.odeint3 (rarefaction_dwdp num q_start wavenumber)
        (q_start.rho, q_start.v, q_start.eps) q_start.p p_end
      let q_end := mkState q_start.eos w.1 w.2.1
        (State.vt_from_known num q_start w.1 w.2.1 w.2.2) w.2.2
      let v_unknown := q_end.wavespeed num wavenumber
      .ok ⟨.rarefaction, wavenumber, false, q_start, q_end,
        if wavenumber = 0 then [v_known, v_unknown] else [v_unknown, v_known]⟩

/-- wave.py, Shock.__init__: wavenumber in {0,2} is asserted (the pressure
ordering deliberately is not, since the code is reused for deflagration
subproblems); coincident pressure is trivial with the known
characteristic speed; otherwise the jump relation is solved through
mass_flux_squared against the start state's own EOS. -/
def Shock (num : Numerics) (fuel : ℕ) (q_start : State) (p_end : ℚ)
    (wavenumber : ℕ) : Except Err WaveSectionT :=
  if ¬(wavenumber = 0 ∨ wavenumber = 2) then .error .assertionError
  else
    let lr : ℚ := (wavenumber : ℚ) - 1
    if isclose q_start.p p_end then
      .ok ⟨.shock, wavenumber, true, q_start,
        mkState q_start.eos q_start.rho q_start.v q_start.vt q_start.eps,
        [q_start.wavespeed num wavenumber]⟩
    else do
      let mfr ← mass_flux_squared num fuel q_start p_end q_start.eos
      let bs := burned_state num q_start q_start.eos lr mfr
      .ok ⟨.shock, wavenumber, false, q_start, bs.1, [bs.2]⟩

/-- wave.py, deflagration_root: the CJ residual, i.e. the difference
between the burned-state characteristic speed and the front speed at a
candidate coupling value. -/
def deflagration_root (num : Numerics) (fuel : ℕ) (q_precursor : State)
    (ueos : EOS) (wavenumber : ℕ) (p_0_star : ℚ) : Except Err ℚ := do
  let lr : ℚ := (wavenumber : ℚ) - 1
  let mfr ← mass_flux_squared num fuel q_precursor p_0_star ueos
  let bs := burned_state num q_precursor ueos lr mfr
  .ok (bs.1.wavespeed num wavenumber - bs.2)

/-- wave.py, precursor_root: build an inert Shock to the candidate
pressure and return the difference between its post-shock temperature and
the ignition temperature. -/
def precursor_root (num : Numerics) (fuel : ℕ) (q_known : State) (t_i : ℚ)
    (wavenumber : ℕ) (p_0_star : ℚ) : Except Err ℚ := do
  let s ← Shock num fuel q_known p_0_star wavenumber
  .ok (s.q_end.t - t_i)

/-- wave.py, Deflagration.__init__: requires a reactive EOS (eos_inert and
t_ignition keys), wavenumber in {0,2}, p_start >= p_end, and start
temperature at or above ignition; solves the jump relation against the
inert (burned) EOS; if the stability check
lr * (wavespeed(end) - v_front) >= 0 fails, re-solves at the
Chapman-Jouguet coupling value found by brentq over deflagration_root. -/
def Deflagration (num : Numerics) (fuel : ℕ) (q_start : State) (p_end : ℚ)
    (wavenumber : ℕ) : Except Err WaveSectionT :=
  match q_start.eos.reactive with
  | none => .error .keyError
  | some r =>
    let eos_end : EOS := ⟨r.eos_inert, none⟩
    let t_i := r.t_ignition
    if ¬(wavenumber = 0 ∨ wavenumber = 2) then .error .assertionError
    else if ¬(q_start.p ≥ p_end) then .error .assertionError
    else if ¬(q_start.t ≥ t_i) then .error .assertionError
    else
      let lr : ℚ := (wavenumber : ℚ) - 1
      let v_known := q_start.wavespeed num wavenumber
      if isclose q_start.p p_end then
        .ok ⟨.deflagration, wavenumber, true, q_start,
          mkState eos_end q_start.rho q_start.v q_start.vt q_start.eps,
          [v_known, v_known]⟩
      else do
        let mfr ← mass_flux_squared num fuel q_start p_end eos_end
        let bs := burned_state num q_start eos_end lr mfr
        if lr * (bs.1.wavespeed num wavenumber - bs.2) < 0 then do
          let p_cjdf ← num.brentq (deflagration_root num fuel q_start eos_end wavenumber)
            ((1 + 1 / 10 ^ 9) * p_end) ((1 - 1 / 10 ^ 9) * q_start.p)
          let mfr2 ← mass_flux_squared num fuel q_start p_cjdf eos_end
          let bs2 := burned_state num q_start eos_end lr mfr2
          .ok ⟨.deflagration, wavenumber, false, q_start, bs2.1, [bs2.2, bs2.2]⟩
        else
          .ok ⟨.deflagration, wavenumber, false, q_start, bs.1, [bs.2, bs.2]⟩

/-- wave.py, Detonation.__init__: requires a reactive EOS, wavenumber in
{0,2}, p_start <= p_end, and start temperature at or above ignition;
solves the jump relation against the inert EOS; if the stability check
fails it runs brentq for the CJ coupling value and then evaluates
self.mass_flux_squared — an attribute that does not exist on any
WaveSection class, so the CJ branch raises AttributeError. -/
def Detonation (num : Numerics) (fuel : ℕ) (q_start : State) (p_end : ℚ)
    (wavenumber : ℕ) : Except Err WaveSectionT :=
  match q_start.eos.reactive with
  | none => .error .keyError
  | some r =>
    let eos_end : EOS := ⟨r.eos_inert, none⟩
    let t_i := r.t_ignition
    if ¬(wavenumber = 0 ∨ wavenumber = 2) then .error .assertionError
    else if ¬(q_start.p ≤ p_end) then .error .assertionError
    else if ¬(q_start.t ≥ t_i) then .error .assertionError
    else
      let lr : ℚ := (wavenumber : ℚ) - 1
      let v_known := q_start.wavespeed num wavenumber
      if isclose q_start.p p_end then
        .ok ⟨.detonation, wavenumber, true, q_start,
          mkState eos_end q_start.rho q_start.v q_start.vt q_start.eps,
          [v_known, v_known]⟩
      else do
        let mfr ← mass_flux_squared num fuel q_start p_end eos_end
        let bs := burned_state num q_start eos_end lr mfr
        if lr * (bs.1.wavespeed num wavenumber - bs.2) < 0 then do
          let _p_cjdt ← num.brentq (deflagration_root num fuel q_start eos_end wavenumber)
            ((1 + 1 / 10 ^ 9) * p_end) ((1 - 1 / 10 ^ 9) * q_start.p)
          .error .attributeError
        else
          .ok ⟨.detonation, wavenumber, false, q_start, bs.1, [bs.2, bs.2]⟩

/-- The dynamically typed unknown_value argument of Wave: a scalar target
coupling value for wavenumbers 0 and 2, or the matching State for the
wavenumber-1 contact (the Python code passes either into the same
parameter). -/
inductive UV where
  | scalar : ℚ → UV
  | state : State → UV

/-- wave.py, build_inert_wave_section: wavenumber 1 gives a single-Contact
list (the unknown value must then be a State, else the Contact asserts on
a float); otherwise a single Shock when the target exceeds the start
pressure, else a single Rarefaction (the unknown value must then be a
scalar, else the comparison raises). -/
def build_inert_wave_section (num : Numerics) (fuel : ℕ) (q_known : State)
    (uv : UV) (wavenumber : ℕ) : Except Err (List WaveSectionT) :=
  if wavenumber = 1 then
    match uv with
    | .state q_end => (Contact num q_known q_end wavenumber).map (fun c => [c])
    | .scalar _ => .error .attributeError
  else
    match uv with
    | .scalar p =>
      if q_known.p < p then (Shock num fuel q_known p wavenumber).map (fun s => [s])
      else (Rarefaction num q_known p wavenumber).map (fun s => [s])
    | .state _ => .error .typeError

/-- wave.py, build_reactive_wave_section.  Wavenumber 1 returns a BARE
Contact section, not a list (unlike the inert factory).  Otherwise, for a
target above the start pressure: a Detonation followed, when its end
pressure overshoots the target, by a Rarefaction.  For a target at or
below the start pressure: when the known temperature is below ignition,
a precursor Shock is synthesized at the pressure found by brentq over
precursor_root (after checking the bracket and doubling its upper end
once if needed), the precursor's end state has its reactive progress
variable overwritten in place with the known state's (the stored section
aliases that state), and the Deflagration is then built from that state;
a Rarefaction is appended when the deflagration end pressure overshoots. -/
def build_reactive_wave_section (num : Numerics) (fuel : ℕ) (q_known : State)
    (uv : UV) (wavenumber : ℕ) : Except Err (List WaveSectionT ⊕ WaveSectionT) :=
  match q_known.eos.reactive with
  | none => .error .keyError
  | some r =>
    let t_i := r.t_ignition
    if wavenumber = 1 then
      match uv with
      | .state q_end => (Contact num q_known q_end wavenumber).map .inr
      | .scalar _ => .error .attributeError
    else
      match uv with
      | .state _ => .error .typeError
      | .scalar unknown_value =>
        if q_known.p < unknown_value then do
          let detonation ← Detonation num fuel q_known unknown_value wavenumber
          let q_next := detonation.q_end
          if q_next.p > unknown_value then do
            let rarefaction ← Rarefaction num q_next unknown_value wavenumber
            .ok (.inl [detonation, rarefaction])
          else .ok (.inl [detonation])
        else
          let t_known := q_known.t
          if t_known < t_i then do
            let p_min := unknown_value
            let p_max := q_known.p
            let t_min ← precursor_root num fuel q_known t_i wavenumber p_min
            let t_max ← precursor_root num fuel q_known t_i wavenumber p_max
            if ¬(t_min < 0) then .error .assertionError
            else do
              let p_max2 := if t_max ≤ 0 then 2 * p_max else p_max
              let _t_max2 ←
                if t_max ≤ 0 then precursor_root num fuel q_known t_i wavenumber p_max2
                else .ok t_max
              let p_0_star ← num.brentq (precursor_root num fuel q_known t_i wavenumber)
                p_min p_max2
              let precursor_shock ← Shock num fuel q_known p_0_star wavenumber
              let q_next : State := { precursor_shock.q_end with q := q_known.q }
              let precursor_shock' : WaveSectionT := { precursor_shock with q_end := q_next }
              let deflagration ← Deflagration num fuel q_next unknown_value wavenumber
              let q_next2 := deflagration.q_end
              if q_next2.p > unknown_value then do
                let rarefaction ← Rarefaction num q_next2 unknown_value wavenumber
                .ok (.inl [precursor_shock', deflagration, rarefaction])
              else .ok (.inl [precursor_shock', deflagration])
          else do
            let deflagration ← Deflagration num fuel q_known unknown_value wavenumber
            let q_next2 := deflagration.q_end
            if q_next2.p > unknown_value then do
              let rarefaction ← Rarefaction num q_next2 unknown_value wavenumber
              .ok (.inl [deflagration, rarefaction])
            else .ok (.inl [deflagration])

/-- The complete wave for one characteristic family: wavenumber, ordered
sections, the two outer edge states, and the overall speed bracket.
The relativistic Wave class defines no overall trivial flag. -/
structure WaveT where
  wavenumber : ℕ
  wave_sections : List WaveSectionT
  q_l : State
  q_r : State
  wavespeed : List ℚ

/-- The end state of the last section of a list, or the supplied default
when the list is empty (wave.py uses sections[-1].q_end with a deepcopy
fallback). -/
def lastEnd (sections : List WaveSectionT) (dflt : State) : State :=
  match sections.getLast? with
  | some s => s.q_end
  | none => dflt

/-- The (min, max) fold over every section's speed values, started from
the sentinels (10, -10) exactly as in Wave.__init__. -/
def speed_minmax (sections : List WaveSectionT) : ℚ × ℚ :=
  sections.foldl
    (fun mm s => s.wavespeed.foldl (fun mm2 sp => (min sp mm2.1, max sp mm2.2)) mm)
    (10, -10)

/-- The overall speed bracket: the minimum is always appended, the maximum
only when not numpy.allclose to the minimum. -/
def mkBracket (mn mx : ℚ) : List ℚ :=
  if isclose mn mx then [mn] else [mn, mx]

/-- The pure tail of Wave.__init__ (wave.py lines 605-631): edge states
q_l / q_r from the known state and the last section's end state according
to the wavenumber, and the overall speed bracket. -/
def assembleWave (q_known : State) (wavenumber : ℕ) (sections : List WaveSectionT) :
    WaveT :=
  let edges : State × State :=
    if wavenumber = 0 then (q_known, lastEnd sections q_known)
    else if wavenumber = 1 then (q_known, q_known)
    else (lastEnd sections q_known, q_known)
  let mm := speed_minmax sections
  ⟨wavenumber, sections, edges.1, edges.2, mkBracket mm.1 mm.2⟩

/-- wave.py, Wave.__init__, section-collection phase: select the inert or
the reactive section factory on the q_available marker and iterate over
the factory's result to collect the sections; a bare non-list section
from the reactive factory is not iterable, which raises TypeError. -/
def wave_sections_of (num : Numerics) (fuel : ℕ) (q_known : State) (uv : UV)
    (wavenumber : ℕ) : Except Err (List WaveSectionT) :=
  match q_known.eos.reactive with
  | none => build_inert_wave_section num fuel q_known uv wavenumber
  | some _ =>
    match build_reactive_wave_section num fuel q_known uv wavenumber with
    | .ok (.inl l) => .ok l
    | .ok (.inr _) => .error .typeError
    | .error e => .error e

/-- wave.py, Wave.__init__: collect the sections, then assemble edge
states and speed bracket. -/
def Wave (num : Numerics) (fuel : ℕ) (q_known : State) (uv : UV)
    (wavenumber : ℕ) : Except Err WaveT :=
  Except.map (assembleWave q_known wavenumber)
    (wave_sections_of num fuel q_known uv wavenumber)

/-- Modelled from the spec: one shallow-water state (r3d2/swe/swe_state.py
is not part of the shown source): depth-proxy phi and velocity v. -/
structure SWEState where
  phi : ℚ
  v : ℚ
deriving DecidableEq, Repr

/-- Modelled from the spec: the state vector returned by
SWEState.state(), used by SWEContact's allclose triviality test. -/
def SWEState.stateVec (s : SWEState) : ℚ × ℚ := (s.phi, s.v)

/-- Modelled from the spec: the shallow-water family-indexed
characteristic speed; wavenumber 1 is the material velocity, wavenumbers
0 and 2 the signed acoustic speed from a local sound speed (no
tangential-velocity correction in this family). -/
def SWEState.wavespeed (num : Numerics) (s : SWEState) (wavenumber : ℕ) : ℚ :=
  if wavenumber = 1 then s.v
  else
    let lr : ℚ := (wavenumber : ℚ) - 1
    let cs := num.sqrt (s.phi / (1 + s.phi))
    (s.v + lr * cs) / (1 + lr * s.v * cs)

/-- One shallow-water wave section. -/
structure SWEWaveSectionT where
  kind : Kind
  wavenumber : ℕ
  trivial : Bool
  q_start : SWEState
  q_end : SWEState
  wavespeed : List ℚ

/-- swe_wave.py, SWEContact.__init__: wavenumber must be 1; the trivial
flag is the allclose comparison of the two state vectors; the states must
agree in velocity, phi and wavespeed(wavenumber). -/
def SWEContact (num : Numerics) (q_start q_end : SWEState) (wavenumber : ℕ) :
    Except Err SWEWaveSectionT :=
  if wavenumber = 1 then
    let triv := isclose q_start.phi q_end.phi && isclose q_start.v q_end.v
    if isclose q_start.v q_end.v
        && isclose q_start.phi q_end.phi
        && isclose (q_start.wavespeed num wavenumber) (q_end.wavespeed num wavenumber) then
      .ok ⟨.contact, wavenumber, triv, q_start, q_end, [q_start.v]⟩
    else .error .assertionError
  else .error .assertionError

/-- swe_wave.py, SWERarefaction.raref: the right-hand side of the
shallow-water rarefaction ODE. -/
def swe_raref (num : Numerics) (v phi lr : ℚ) : ℚ :=
  (1 / 2) * (-v ^ 3 + v - lr * (v ^ 2 - 1) * num.sqrt (v ^ 2 + 4 / phi))

/-- swe_wave.py, SWERarefaction.__init__: wavenumber in {0,2} and
phi_start >= phi_end are asserted; in the coincident case the section is
trivial and the speed list REMAINS EMPTY (self.wavespeed = [] is never
overwritten on that path); otherwise the rarefaction ODE is integrated to
phi_end and the two speeds are ordered by wavenumber. -/
def SWERarefaction (num : Numerics) (q_start : SWEState) (phi_end : ℚ)
    (wavenumber : ℕ) : Except Err SWEWaveSectionT :=
  if ¬(wavenumber = 0 ∨ wavenumber = 2) then .error .assertionError
  else if ¬(q_start.phi ≥ phi_end) then .error .assertionError
  else
    let v_known := q_start.wavespeed num wavenumber
    if isclose q_start.phi phi_end then
      .ok ⟨.rarefaction, wavenumber, true, q_start, ⟨q_start.phi, q_start.v⟩, []⟩
    else
      let lr : ℚ := (wavenumber : ℚ) - 1
      let v_star := num.odeint1 (fun v phi => swe_raref num v phi lr)
        q_start.v q_start.phi phi_end
      let q_end : SWEState := ⟨phi_end, v_star⟩
      let v_unknown := q_end.wavespeed num wavenumber
      .ok ⟨.rarefaction, wavenumber, false, q_start, q_end,
        if wavenumber = 0 then [v_known, v_unknown] else [v_unknown, v_known]⟩

/-- swe_wave.py, SWEShock.analytic_shock: closed-form shock speed and
post-shock velocity. -/
def analytic_shock (num : Numerics) (q : SWEState) (phi_star lr : ℚ) : ℚ × ℚ :=
  let phi := q.phi
  let v := q.v
  let w_bar := num.sqrt (1 + phi_star / phi * (phi_star + phi) / 2)
  let v_bar := -lr * num.sqrt (1 - 1 / w_bar ^ 2)
  let V_s := (v - v_bar) / (1 - v * v_bar)
  let Wv_star_bar := phi * w_bar * v_bar / phi_star
  let w_star_bar := num.sqrt (1 + Wv_star_bar ^ 2)
  let v_star_bar := -lr * num.sqrt (1 - 1 / w_star_bar ^ 2)
  let v_star := (v_star_bar + V_s) / (1 + v_star_bar * V_s)
  (V_s, v_star)

/-- swe_wave.py, SWEShock.__init__: wavenumber in {0,2} and
phi_start <= phi_end are asserted; coincident phi is trivial with the
known characteristic speed; otherwise the analytic jump solution is
used.  A single speed is reported. -/
def SWEShock (num : Numerics) (q_start : SWEState) (phi_end : ℚ)
    (wavenumber : ℕ) : Except Err SWEWaveSectionT :=
  if ¬(wavenumber = 0 ∨ wavenumber = 2) then .error .assertionError
  else if ¬(q_start.phi ≤ phi_end) then .error .assertionError
  else
    let lr : ℚ := (wavenumber : ℚ) - 1
    if isclose q_start.phi phi_end then
      .ok ⟨.shock, wavenumber, true, q_start, ⟨q_start.phi, q_start.v⟩,
        [q_start.wavespeed num wavenumber]⟩
    else
      let vs := analytic_shock num q_start phi_end lr
      .ok ⟨.shock, wavenumber, false, q_start, ⟨phi_end, vs.2⟩, [vs.1]⟩

/-- The dynamically typed unknown_value of an SWEWave. -/
inductive SUV where
  | scalar : ℚ → SUV
  | state : SWEState → SUV

/-- swe_wave.py, SWEWave.build_wave_section: wavenumber 1 gives a single
SWEContact; otherwise a single SWEShock when the target phi exceeds the
start's, else a single SWERarefaction. -/
def swe_build_wave_section (num : Numerics) (q_known : SWEState) (uv : SUV)
    (wavenumber : ℕ) : Except Err (List SWEWaveSectionT) :=
  if wavenumber = 1 then
    match uv with
    | .state q_end => (SWEContact num q_known q_end wavenumber).map (fun c => [c])
    | .scalar _ => .error .attributeError
  else
    match uv with
    | .scalar phi =>
      if q_known.phi < phi then (SWEShock num q_known phi wavenumber).map (fun s => [s])
      else (SWERarefaction num q_known phi wavenumber).map (fun s => [s])
    | .state _ => .error .typeError

/-- A complete shallow-water wave.  Unlike the relativistic Wave, this
class computes an overall trivial flag and discards the speed bracket
when the wave is trivial. -/
structure SWEWaveT where
  wavenumber : ℕ
  wave_sections : List SWEWaveSectionT
  q_l : SWEState
  q_r : SWEState
  wavespeed : List ℚ
  trivial : Bool

/-- The end state of the last shallow-water section, or the default. -/
def sweLastEnd (sections : List SWEWaveSectionT) (dflt : SWEState) : SWEState :=
  match sections.getLast? with
  | some s => s.q_end
  | none => dflt

/-- The (min, max) fold over the shallow-water sections' speeds, from the
sentinels (10, -10). -/
def swe_speed_minmax (sections : List SWEWaveSectionT) : ℚ × ℚ :=
  sections.foldl
    (fun mm s => s.wavespeed.foldl (fun mm2 sp => (min sp mm2.1, max sp mm2.2)) mm)
    (10, -10)

/-- The pure tail of SWEWave.__init__ (swe_wave.py lines 230-264): edge
states by wavenumber, speed bracket, overall trivial flag as the
conjunction of the sections' flags, and the bracket emptied when the wave
is trivial. -/
def assembleSWEWave (q_known : SWEState) (wavenumber : ℕ)
    (sections : List SWEWaveSectionT) : SWEWaveT :=
  let edges : SWEState × SWEState :=
    if wavenumber = 0 then (q_known, sweLastEnd sections q_known)
    else if wavenumber = 1 then (q_known, q_known)
    else (sweLastEnd sections q_known, q_known)
  let mm := swe_speed_minmax sections
  let triv := sections.all (fun s => s.trivial)
  ⟨wavenumber, sections, edges.1, edges.2,
    if triv then [] else mkBracket mm.1 mm.2, triv⟩

/-- swe_wave.py, SWEWave.__init__.  The call into the Wave base-class
initializer is modelled, per the spec's conforming-family contract, as
contributing no sections and no speeds (the base class and the SWEState
it would touch are outside the shown source); the SWE factory's sections
are then collected and the SWE-specific aggregation (edge states, speed
bracket, overall trivial flag, bracket discarded when trivial) is
applied. -/
def SWEWave (num : Numerics) (q_known : SWEState) (uv : SUV)
    (wavenumber : ℕ) : Except Err SWEWaveT :=
  Except.map (assembleSWEWave q_known wavenumber)
    (swe_build_wave_section num q_known uv wavenumber)

/-- Concrete external numerics used by the witnesses: sqrt is the
identity, brentq always reports 3/4, odeint returns its initial vector. -/
def cnum : Numerics :=
  ⟨fun x => x, fun _ _ _ => .ok (3 / 4), fun _ w _ _ => w, fun _ v _ _ => v⟩

/-- Concrete inert (burned-product) EOS closures for the witnesses. -/
def inertBase : EOSBase :=
  ⟨fun _ _ => 1 / 2, fun _ _ => 1, fun _ _ => 1, fun _ _ => 0, fun rho _ => 3 * rho - 1⟩

/-- Concrete reactive-side base closures for the witnesses. -/
def reactBase : EOSBase :=
  ⟨fun rho _ => rho, fun _ _ => 1, fun _ _ => 0, fun rho eps => rho - (3 / 2) * eps,
   fun rho _ => 2 * rho - 1⟩

/-- Concrete reactive payload for the witnesses: ignition temperature 3,
progress variable supplied as the density. -/
def reactInfo : Reactive := ⟨fun rho _ => rho, 3, inertBase⟩

/-- Concrete reactive EOS capability for the witnesses. -/
def reactEOS : EOS := ⟨reactBase, some reactInfo⟩

/-- Concrete known state for the reactive witnesses. -/
def cq : State := mkState reactEOS 1 0 0 1

/-- Concrete inert EOS capability (no reactive marker). -/
def inertEOS : EOS := ⟨inertBase, none⟩

/-- Concrete known state for the inert witnesses; its pressure is 1/2. -/
def q0 : State := mkState inertEOS 1 0 0 1

/-- Concrete inert closures whose burned sound speed vanishes, driving a
detonation into the unstable (Chapman-Jouguet) branch. -/
def inertBase3 : EOSBase :=
  ⟨fun _ _ => 1 / 2, fun _ _ => 1, fun _ _ => 0, fun _ _ => 0, fun rho _ => 3 * rho - 1⟩

/-- Concrete reactive payload with ignition temperature -1 (so the known
state is already ignited) and the CJ-driving inert closures. -/
def react3 : Reactive := ⟨fun rho _ => rho, -1, inertBase3⟩

/-- Concrete reactive EOS capability for the detonation witness. -/
def reactEOS3 : EOS := ⟨reactBase, some react3⟩

/-- Concrete ignited known state for the detonation witness. -/
def cq3 : State := mkState reactEOS3 1 0 0 1

/-- Concrete closures on which the shock-adiabat residual never changes
sign: the candidate enthalpy closure is constant and equal to the start
state's enthalpy, so the residual keeps one sign however far the bracket
is widened. -/
def badBase : EOSBase :=
  ⟨fun _ _ => 1, fun _ _ => 1, fun _ _ => 0, fun _ _ => 0, fun _ _ => 1⟩

/-- The inert EOS capability built on the sign-change-free closures. -/
def badEOS : EOS := ⟨badBase, none⟩

/-- Concrete start state for the non-terminating bracket search. -/
def badq : State := mkState badEOS 1 0 0 1

/-- Concrete shallow-water state for the SWE witnesses. -/
def csq : SWEState := ⟨1, 0⟩

/-- Placeholder state used only as the default of Option.getD when
extracting concrete construction results. -/
def dummyState : State :=
  mkState ⟨⟨fun _ _ => 0, fun _ _ => 0, fun _ _ => 0, fun _ _ => 0, fun _ _ => 0⟩, none⟩ 0 0 0 0

/-- Placeholder section for Option.getD extraction. -/
def dummySection : WaveSectionT := ⟨.contact, 1, false, dummyState, dummyState, []⟩

/-- Placeholder wave for Option.getD extraction. -/
def dummyWave : WaveT := ⟨1, [], dummyState, dummyState, []⟩

/-- The relativistic Contact section built from the state q0 twice. -/
def cC10 : WaveSectionT := ⟨.contact, 1, false, q0, q0, [q0.v]⟩

/-- The trivial shallow-water rarefaction at coincident phi. -/
def cSec4 : SWEWaveSectionT := ⟨.rarefaction, 0, true, csq, ⟨csq.phi, csq.v⟩, []⟩

/-- The trivial inert rarefaction section of the concrete wave cW8. -/
def cRare8 : WaveSectionT :=
  ⟨.rarefaction, 0, true, q0, q0, [q0.wavespeed cnum 0, q0.wavespeed cnum 0]⟩

/-- The concrete relativistic wave whose only section is trivial. -/
def cW8 : WaveT := ⟨0, [cRare8], q0, q0, [q0.wavespeed cnum 0]⟩

/-- The concrete trivial shallow-water contact wave. -/
def cswW : SWEWaveT :=
  ⟨1, [⟨.contact, 1, true, csq, csq, [csq.v]⟩], csq, csq, [], true⟩

/-- The raw precursor shock as constructed by the Shock solver at the
root pressure 3/4 of the concrete pipeline. -/
def cS9raw : WaveSectionT :=
  ⟨.shock, 2, false, cq, mkState reactEOS (3 / 4) 0 0 (-3 / 2), [1]⟩

/-- The precursor shock as stored in the composed wave: the same section
with its end state's reactive progress variable reset to cq.q. -/
def cS9stored : WaveSectionT :=
  { cS9raw with q_end := { cS9raw.q_end with q := cq.q } }

/-- The deflagration section following the precursor in the concrete
pipeline. -/
def cDefl9 : WaveSectionT :=
  ⟨.deflagration, 2, false, cS9stored.q_end,
    mkState ⟨inertBase, none⟩ (3 / 4) 0 0 (-5 / 12), [1, 1]⟩

/-- The composed concrete reactive wave with precursor. -/
def cW9 : WaveT := ⟨2, [cS9stored, cDefl9], cDefl9.q_end, cq, [1]⟩

/-- The concrete mass-flux tuple of the CJ detonation witness. -/
def cmfr3 : ℚ × ℚ × ℚ × ℚ := (16 / 23, 3 / 4, -29 / 12, 1)

theorem isclose_self (a : ℚ) : isclose a a = true := by
  simp only [isclose, sub_self, abs_zero, decide_eq_true_eq]
  positivity

theorem except_bind_eq_ok {ε α β : Type} {x : Except ε α} {f : α → Except ε β} {b : β} :
    x >>= f = .ok b ↔ ∃ a, x = .ok a ∧ f a = .ok b := by
  cases x <;> simp [Bind.bind, Except.bind]

theorem except_map_eq_ok {ε α β : Type} {x : Except ε α} {g : α → β} {b : β} :
    Except.map g x = .ok b ↔ ∃ a, x = .ok a ∧ g a = b := by
  cases x <;> simp [Except.map]

theorem shock_root_badq_neg (rho : ℚ) (h : 0 < rho) :
    shock_root_rho badq 2 badEOS rho < 0 := by
  have h1 : shock_root_rho badq 2 badEOS rho = -(1 / rho + 1) := by
    simp [shock_root_rho, badq, badEOS, badBase, mkState, State.h, State.p]
    ring
  rw [h1]
  have : 0 < 1 / rho := by positivity
  linarith

theorem bracket_widen_badq_diverges (n : ℕ) :
    ∀ (mn mx : ℚ), 0 < mn → 0 < mx →
      bracket_widen (shock_root_rho badq 2 badEOS)
        (fun x => x / (11 / 10)) (fun x => x * 10) n mn mx = .error .fuelOut := by
  induction n with
  | zero =>
    intro mn mx hmn hmx
    unfold bracket_widen
    rw [if_pos (mul_pos_of_neg_of_neg (shock_root_badq_neg mn hmn) (shock_root_badq_neg mx hmx))]
  | succ k ih =>
    intro mn mx hmn hmx
    unfold bracket_widen
    rw [if_pos (mul_pos_of_neg_of_neg (shock_root_badq_neg mn hmn) (shock_root_badq_neg mx hmx))]
    exact ih _ _ (by positivity) (by positivity)

/-- C7.  The geometric bracket-widening loop of mass_flux_squared has no
iteration bound and does NOT terminate for all inputs: on a concrete EOS
whose candidate-enthalpy closure is constant and equal to the start
enthalpy, the shock-adiabat residual never changes sign, so however much
fuel the modelled loop is given it is still looping (the Python code
would run forever and no solver failure is ever surfaced). -/
theorem c7_bracket_widening_diverges :
    ∀ fuel : ℕ, mass_flux_squared cnum fuel badq 2 badEOS = .error .fuelOut := by
  intro fuel
  have hge : (2 : ℚ) ≥ badq.p := by
    norm_num [badq, badEOS, badBase, mkState, State.p]
  have hrho : (0 : ℚ) < badq.rho := by norm_num [badq, mkState]
  have hmx : (0 : ℚ) < cnum.sqrt (2 / badq.p) * badq.rho := by
    norm_num [cnum, badq, badEOS, badBase, mkState, State.p]
  simp only [mass_flux_squared]
  rw [if_pos hge, bracket_widen_badq_diverges fuel badq.rho _ hrho hmx]
  rfl

/-- C7 witness: the non-termination theorem applied at fuel 3 — after
three widenings the concrete bracket search is still looping. -/
theorem c7_witness : mass_flux_squared cnum 3 badq 2 badEOS = .error .fuelOut :=
  c7_bracket_widening_diverges 3

/-- C6.  Asking for a Rarefaction whose target coupling value strictly
exceeds the start state's fails the precondition assert immediately in
either family: the construction returns an assertion error and produces
no section. -/
theorem c6_rarefaction_rejects_increasing_target :
    ∀ (num : Numerics) (q : State) (p_end : ℚ) (s : SWEState) (phi_end : ℚ) (wn : ℕ),
      (wn = 0 ∨ wn = 2) →
      (q.p < p_end → Rarefaction num q p_end wn = .error .assertionError) ∧
      (s.phi < phi_end → SWERarefaction num s phi_end wn = .error .assertionError) := by
  intro num q p_end s phi_end wn hwn
  constructor
  · intro hp
    unfold Rarefaction
    rw [if_neg (not_not.mpr hwn), if_pos (not_le.mpr hp)]
  · intro hp
    unfold SWERarefaction
    rw [if_neg (not_not.mpr hwn), if_pos (not_le.mpr hp)]

/-- C6 witness: the inert relativistic state with pressure 1/2 and the
shallow-water state with phi 1 both reject a strictly larger target. -/
theorem c6_witness :
    Rarefaction cnum q0 1 0 = .error .assertionError ∧
    SWERarefaction cnum csq 2 0 = .error .assertionError := by
  have h := c6_rarefaction_rejects_increasing_target cnum q0 1 csq 2 0 (Or.inl rfl)
  exact ⟨h.1 (by norm_num [q0, inertEOS, inertBase, mkState, State.p]),
         h.2 (by norm_num [csq])⟩

/-- C10 counterexample: a relativistic Contact built from two NUMERICALLY
EQUAL states (the same state twice) succeeds but its trivial flag is
false — the relativistic Contact constructor never sets the flag, so
"trivial iff the states are numerically equal" fails in that family. -/
theorem c10_counterexample_contact_trivial :
    Contact cnum q0 q0 1 = .ok cC10 ∧ cC10.q_start = cC10.q_end ∧
      cC10.trivial = false := by
  exact ⟨by with_unfolding_all rfl, rfl, rfl⟩

/-- C10 as amended: a Contact from two states matching (numpy.allclose)
in velocity, coupling value and wavespeed(1) succeeds in either family;
the shallow-water section's trivial flag is the allclose comparison of
the two state vectors (hence true whenever construction succeeds), while
the relativistic section's trivial flag is always false, even for equal
states. -/
theorem c10_contact_amended :
    ∀ (num : Numerics) (q1 q2 : State) (s1 s2 : SWEState),
      (isclose q1.v q2.v = true → isclose q1.p q2.p = true →
        isclose (q1.wavespeed num 1) (q2.wavespeed num 1) = true →
        Contact num q1 q2 1 = .ok ⟨.contact, 1, false, q1, q2, [q1.v]⟩) ∧
      (isclose s1.v s2.v = true → isclose s1.phi s2.phi = true →
        isclose (s1.wavespeed num 1) (s2.wavespeed num 1) = true →
        SWEContact num s1 s2 1 =
          .ok ⟨.contact, 1, isclose s1.phi s2.phi && isclose s1.v s2.v, s1, s2, [s1.v]⟩) := by
  intro num q1 q2 s1 s2
  constructor
  · intro h1 h2 h3
    unfold Contact
    rw [if_pos rfl, if_pos (by simp [h1, h2, h3])]
  · intro h1 h2 h3
    unfold SWEContact
    rw [if_pos rfl, if_pos (by simp [h1, h2, h3])]

/-- C10 witness: the amended statement applied to concrete identical
pairs in both families. -/
theorem c10_witness :
    Contact cnum q0 q0 1 = .ok ⟨.contact, 1, false, q0, q0, [q0.v]⟩ ∧
    SWEContact cnum csq csq 1 =
      .ok ⟨.contact, 1, isclose csq.phi csq.phi && isclose csq.v csq.v, csq, csq, [csq.v]⟩ := by
  have h := c10_contact_amended cnum q0 q0 csq csq
  exact ⟨h.1 (isclose_self _) (isclose_self _) (isclose_self _),
         h.2 (isclose_self _) (isclose_self _) (isclose_self _)⟩

/-- C4 counterexample: a shallow-water Rarefaction whose target equals
the start's coupling value is trivial but reports NO speed at all (its
speed list stays empty), refuting "the section reports a single speed
equal to start.wavespeed(wavenumber)". -/
theorem c4_counterexample_trivial_speed_count :
    SWERarefaction cnum csq 1 0 = .ok cSec4 ∧ cSec4.trivial = true ∧
      cSec4.wavespeed = [] := by
  exact ⟨by with_unfolding_all rfl, rfl, rfl⟩

/-- C4 as amended: for a target coupling value exactly equal to the
start state's, each variant is trivial and its end state carries the
start state's primary variables, but the reported speeds differ by
variant: Shock and SWEShock report one speed equal to
start.wavespeed(wavenumber), Rarefaction / Deflagration / Detonation
report that value twice, and the trivial SWERarefaction reports no speed
at all. -/
theorem c4_trivial_sections_amended :
    ∀ (num : Numerics) (fuel : ℕ) (q : State) (wn : ℕ) (r : Reactive) (s : SWEState),
      (wn = 0 ∨ wn = 2) →
      Rarefaction num q q.p wn =
        .ok ⟨.rarefaction, wn, true, q, mkState q.eos q.rho q.v q.vt q.eps,
          [q.wavespeed num wn, q.wavespeed num wn]⟩ ∧
      Shock num fuel q q.p wn =
        .ok ⟨.shock, wn, true, q, mkState q.eos q.rho q.v q.vt q.eps,
          [q.wavespeed num wn]⟩ ∧
      (q.eos.reactive = some r → q.t ≥ r.t_ignition →
        Deflagration num fuel q q.p wn =
          .ok ⟨.deflagration, wn, true, q, mkState ⟨r.eos_inert, none⟩ q.rho q.v q.vt q.eps,
            [q.wavespeed num wn, q.wavespeed num wn]⟩ ∧
        Detonation num fuel q q.p wn =
          .ok ⟨.detonation, wn, true, q, mkState ⟨r.eos_inert, none⟩ q.rho q.v q.vt q.eps,
            [q.wavespeed num wn, q.wavespeed num wn]⟩) ∧
      SWERarefaction num s s.phi wn =
        .ok ⟨.rarefaction, wn, true, s, ⟨s.phi, s.v⟩, []⟩ ∧
      SWEShock num s s.phi wn =
        .ok ⟨.shock, wn, true, s, ⟨s.phi, s.v⟩, [s.wavespeed num wn]⟩ := by
  intro num fuel q wn r s hwn
  refine ⟨?_, ?_, ?_, ?_, ?_⟩
  · unfold Rarefaction
    rw [if_neg (not_not.mpr hwn), if_neg (not_not.mpr (le_refl q.p)), if_pos (isclose_self q.p)]
  · unfold Shock
    rw [if_neg (not_not.mpr hwn), if_pos (isclose_self q.p)]
  · intro hr ht
    constructor
    · unfold Deflagration
      rw [hr]
      simp only []
      rw [if_neg (not_not.mpr hwn), if_neg (not_not.mpr (le_refl q.p)),
        if_neg (not_not.mpr ht), if_pos (isclose_self q.p)]
    · unfold Detonation
      rw [hr]
      simp only []
      rw [if_neg (not_not.mpr hwn), if_neg (not_not.mpr (le_refl q.p)),
        if_neg (not_not.mpr ht), if_pos (isclose_self q.p)]
  · unfold SWERarefaction
    rw [if_neg (not_not.mpr hwn), if_neg (not_not.mpr (le_refl s.phi)), if_pos (isclose_self s.phi)]
  · unfold SWEShock
    rw [if_neg (not_not.mpr hwn), if_neg (not_not.mpr (le_refl s.phi)), if_pos (isclose_self s.phi)]

/-- C4 witness: the amended statement applied to the concrete ignited
state cq3 (so the reactive variants are exercised too) and the concrete
shallow-water state. -/
theorem c4_witness :
    Rarefaction cnum cq3 cq3.p 2 =
      .ok ⟨.rarefaction, 2, true, cq3, mkState cq3.eos cq3.rho cq3.v cq3.vt cq3.eps,
        [cq3.wavespeed cnum 2, cq3.wavespeed cnum 2]⟩ ∧
    Shock cnum 0 cq3 cq3.p 2 =
      .ok ⟨.shock, 2, true, cq3, mkState cq3.eos cq3.rho cq3.v cq3.vt cq3.eps,
        [cq3.wavespeed cnum 2]⟩ ∧
    Deflagration cnum 0 cq3 cq3.p 2 =
      .ok ⟨.deflagration, 2, true, cq3, mkState ⟨react3.eos_inert, none⟩ cq3.rho cq3.v cq3.vt cq3.eps,
        [cq3.wavespeed cnum 2, cq3.wavespeed cnum 2]⟩ ∧
    SWERarefaction cnum csq csq.phi 2 = .ok ⟨.rarefaction, 2, true, csq, ⟨csq.phi, csq.v⟩, []⟩ := by
  have h := c4_trivial_sections_amended cnum 0 cq3 2 react3 csq (Or.inr rfl)
  exact ⟨h.1, h.2.1, (h.2.2.1 rfl (by with_unfolding_all decide)).1, h.2.2.2.1⟩

/-- C8 counterexample: a relativistic Wave all of whose sections are
trivial still reports a NONEMPTY speed bracket (and the relativistic Wave
defines no overall trivial flag at all): the bracket is never discarded
in that family. -/
theorem c8_counterexample_trivial_wave_bracket :
    Wave cnum 0 q0 (.scalar (1 / 2)) 0 = .ok cW8 ∧
      cW8.wave_sections.all (fun s => s.trivial) = true ∧
      cW8.wavespeed ≠ [] := by
  refine ⟨by with_unfolding_all rfl, rfl, by simp [cW8]⟩

/-- C8 as amended: the claimed aggregation holds of the shallow-water
SWEWave (overall trivial flag is the conjunction of the section flags,
the bracket is emptied when trivial, and otherwise is [min] or
[min, max] collapsed under allclose), while the relativistic Wave always
reports the [min] / [min, max] bracket and has no trivial flag. -/
theorem c8_wave_bracket_amended :
    (∀ (num : Numerics) (q : SWEState) (uv : SUV) (wn : ℕ) (w : SWEWaveT),
      SWEWave num q uv wn = .ok w →
      w.trivial = w.wave_sections.all (fun s => s.trivial) ∧
      (w.trivial = true → w.wavespeed = []) ∧
      (w.trivial = false →
        w.wavespeed = mkBracket (swe_speed_minmax w.wave_sections).1
          (swe_speed_minmax w.wave_sections).2)) ∧
    (∀ (num : Numerics) (fuel : ℕ) (q : State) (uv : UV) (wn : ℕ) (w : WaveT),
      Wave num fuel q uv wn = .ok w →
      w.wavespeed = mkBracket (speed_minmax w.wave_sections).1
        (speed_minmax w.wave_sections).2) := by
  constructor
  · intro num q uv wn w h
    unfold SWEWave at h
    obtain ⟨secs, hs, hw⟩ := except_map_eq_ok.mp h
    subst hw
    by_cases hall : secs.all (fun s => s.trivial) = true
    · simp [assembleSWEWave, hall]
    · simp only [Bool.not_eq_true] at hall
      simp [assembleSWEWave, hall]
  · intro num fuel q uv wn w h
    unfold Wave at h
    obtain ⟨secs, hs, hw⟩ := except_map_eq_ok.mp h
    subst hw
    simp [assembleWave]

/-- C8 witness: the amended statement applied to a concrete trivial
shallow-water contact wave, whose speed bracket is discarded. -/
theorem c8_witness :
    SWEWave cnum csq (.state csq) 1 = .ok cswW ∧ cswW.wavespeed = [] := by
  refine ⟨by with_unfolding_all rfl, ?_⟩
  have h := c8_wave_bracket_amended.1 cnum csq (.state csq) 1 cswW
    (by with_unfolding_all rfl)
  exact h.2.1 rfl

/-- C1.  Edge states of every successfully constructed Wave, in both
families: for wavenumber 0, q_l is the supplied known state and q_r the
last section's end state (or the known state when there are no sections);
for wavenumber 2 the roles are reversed; for wavenumber 1 both edges are
the known state. -/
theorem c1_wave_edge_states :
    (∀ (num : Numerics) (fuel : ℕ) (q : State) (uv : UV) (wn : ℕ) (w : WaveT),
      Wave num fuel q uv wn = .ok w →
      (wn = 0 → w.q_l = q ∧ w.q_r = lastEnd w.wave_sections q) ∧
      (wn = 1 → w.q_l = q ∧ w.q_r = q) ∧
      (wn = 2 → w.q_l = lastEnd w.wave_sections q ∧ w.q_r = q)) ∧
    (∀ (num : Numerics) (q : SWEState) (uv : SUV) (wn : ℕ) (w : SWEWaveT),
      SWEWave num q uv wn = .ok w →
      (wn = 0 → w.q_l = q ∧ w.q_r = sweLastEnd w.wave_sections q) ∧
      (wn = 1 → w.q_l = q ∧ w.q_r = q) ∧
      (wn = 2 → w.q_l = sweLastEnd w.wave_sections q ∧ w.q_r = q)) := by
  constructor
  · intro num fuel q uv wn w h
    unfold Wave at h
    obtain ⟨secs, hs, hw⟩ := except_map_eq_ok.mp h
    subst hw
    refine ⟨?_, ?_, ?_⟩ <;> intro hwn <;> subst hwn <;> simp [assembleWave]
  · intro num q uv wn w h
    unfold SWEWave at h
    obtain ⟨secs, hs, hw⟩ := except_map_eq_ok.mp h
    subst hw
    refine ⟨?_, ?_, ?_⟩ <;> intro hwn <;> subst hwn <;> simp [assembleSWEWave]

/-- C1 witness: the edge-state invariant applied to the concrete
wavenumber-0 inert wave cW8. -/
theorem c1_witness : cW8.q_l = q0 ∧ cW8.q_r = lastEnd cW8.wave_sections q0 := by
  have h := c1_wave_edge_states.1 cnum 0 q0 (.scalar (1 / 2)) 0 cW8
    (by with_unfolding_all rfl)
  exact h.1 rfl

/-- C5.  A reactive Wave with wavenumber 1 NEVER constructs successfully,
even from a perfectly matching state pair: build_reactive_wave_section
returns a bare Contact object instead of a list (unlike the inert
factory), and Wave.__init__'s iteration over it raises TypeError.  The
wavenumber-1 single-Contact claim therefore fails for the reactive
strategy. -/
theorem c5_reactive_wavenumber1_type_error :
    ∀ (num : Numerics) (fuel : ℕ) (q qe : State) (r : Reactive),
      q.eos.reactive = some r →
      isclose q.v qe.v = true → isclose q.p qe.p = true →
      isclose (q.wavespeed num 1) (qe.wavespeed num 1) = true →
      Wave num fuel q (.state qe) 1 = .error .typeError := by
  intro num fuel q qe r hr h1 h2 h3
  have hb : build_reactive_wave_section num fuel q (.state qe) 1 =
      .ok (.inr ⟨.contact, 1, false, q, qe, [q.v]⟩) := by
    unfold build_reactive_wave_section Contact
    rw [hr]
    simp [h1, h2, h3, Except.map]
  unfold Wave wave_sections_of
  rw [hr]
  simp only []
  rw [hb]
  rfl

/-- C5 witness: the reactive known state paired with itself (velocities,
pressures and wavespeeds trivially matching) still yields TypeError. -/
theorem c5_witness : Wave cnum 0 cq (.state cq) 1 = .error .typeError := by
  exact c5_reactive_wavenumber1_type_error cnum 0 cq cq
    (Option.get reactEOS.reactive (by with_unfolding_all rfl))
    (by with_unfolding_all rfl) (isclose_self _) (isclose_self _) (isclose_self _)

/-- C3.  When a Detonation's stability check fails (the Chapman-Jouguet
case), the constructor runs the CJ root search and then evaluates
self.mass_flux_squared — an attribute no WaveSection class defines — so
the construction raises AttributeError instead of rebuilding the end
state at the CJ coupling value.  The claimed CJ re-solve never happens
for a Detonation. -/
theorem c3_detonation_cj_attribute_error :
    ∀ (num : Numerics) (fuel : ℕ) (q : State) (p_end : ℚ) (wn : ℕ) (r : Reactive)
      (mfr : ℚ × ℚ × ℚ × ℚ) (pcj : ℚ),
      q.eos.reactive = some r →
      (wn = 0 ∨ wn = 2) →
      q.p ≤ p_end →
      q.t ≥ r.t_ignition →
      isclose q.p p_end = false →
      mass_flux_squared num fuel q p_end ⟨r.eos_inert, none⟩ = .ok mfr →
      ((wn : ℚ) - 1) *
        ((burned_state num q ⟨r.eos_inert, none⟩ ((wn : ℚ) - 1) mfr).1.wavespeed num wn -
          (burned_state num q ⟨r.eos_inert, none⟩ ((wn : ℚ) - 1) mfr).2) < 0 →
      num.brentq (deflagration_root num fuel q ⟨r.eos_inert, none⟩ wn)
        ((1 + 1 / 10 ^ 9) * p_end) ((1 - 1 / 10 ^ 9) * q.p) = .ok pcj →
      Detonation num fuel q p_end wn = .error .attributeError := by
  intro num fuel q p_end wn r mfr pcj hr hwn hp ht hnc hmf hcj hbq
  unfold Detonation
  rw [hr]
  simp only []
  rw [if_neg (not_not.mpr hwn), if_neg (not_not.mpr hp), if_neg (not_not.mpr ht),
    if_neg (by simp [hnc])]
  rw [hmf]
  simp only [Bind.bind, Except.bind]
  rw [if_pos hcj, hbq]

theorem Contact_ok_fields {num : Numerics} {q1 q2 : State} {wn : ℕ} {s : WaveSectionT}
    (h : Contact num q1 q2 wn = .ok s) :
    s.kind = .contact ∧ s.q_start = q1 ∧ s.q_end = q2 := by
  unfold Contact at h
  split at h
  · split at h
    · cases h; exact ⟨rfl, rfl, rfl⟩
    · cases h
  · cases h

theorem Rarefaction_ok_fields {num : Numerics} {q : State} {p : ℚ} {wn : ℕ}
    {s : WaveSectionT} (h : Rarefaction num q p wn = .ok s) :
    s.kind = .rarefaction ∧ s.q_start = q := by
  unfold Rarefaction at h
  split at h
  · cases h
  · split at h
    · cases h
    · split at h
      · cases h; exact ⟨rfl, rfl⟩
      · cases h; exact ⟨rfl, rfl⟩

theorem Shock_ok_fields {num : Numerics} {fuel : ℕ} {q : State} {p : ℚ} {wn : ℕ}
    {s : WaveSectionT} (h : Shock num fuel q p wn = .ok s) :
    s.kind = .shock ∧ s.q_start = q := by
  unfold Shock at h
  split at h
  · cases h
  · split at h
    · cases h; exact ⟨rfl, rfl⟩
    · rcases except_bind_eq_ok.mp h with ⟨mfr, _, h2⟩
      simp only [] at h2
      cases h2; exact ⟨rfl, rfl⟩

theorem Deflagration_ok_fields {num : Numerics} {fuel : ℕ} {q : State} {p : ℚ} {wn : ℕ}
    {s : WaveSectionT} (h : Deflagration num fuel q p wn = .ok s) :
    s.kind = .deflagration ∧ s.q_start = q := by
  unfold Deflagration at h
  split at h
  · cases h
  · simp only [] at h
    split at h
    · cases h
    · split at h
      · cases h
      · split at h
        · cases h
        · split at h
          · cases h; exact ⟨rfl, rfl⟩
          · rcases except_bind_eq_ok.mp h with ⟨mfr, _, h2⟩
            split at h2
            · rcases except_bind_eq_ok.mp h2 with ⟨pcj, _, h3⟩
              rcases except_bind_eq_ok.mp h3 with ⟨mfr2, _, h4⟩
              cases h4; exact ⟨rfl, rfl⟩
            · cases h2; exact ⟨rfl, rfl⟩

theorem Detonation_ok_fields {num : Numerics} {fuel : ℕ} {q : State} {p : ℚ} {wn : ℕ}
    {s : WaveSectionT} (h : Detonation num fuel q p wn = .ok s) :
    s.kind = .detonation ∧ s.q_start = q := by
  unfold Detonation at h
  split at h
  · cases h
  · simp only [] at h
    split at h
    · cases h
    · split at h
      · cases h
      · split at h
        · cases h
        · split at h
          · cases h; exact ⟨rfl, rfl⟩
          · rcases except_bind_eq_ok.mp h with ⟨mfr, _, h2⟩
            split at h2
            · rcases except_bind_eq_ok.mp h2 with ⟨pcj, _, h3⟩
              cases h3
            · cases h2; exact ⟨rfl, rfl⟩

theorem wave_ok_reactive_inl {num : Numerics} {fuel : ℕ} {q : State} {uv : UV}
    {wn : ℕ} {w : WaveT} {r : Reactive} (hr : q.eos.reactive = some r)
    (h : Wave num fuel q uv wn = .ok w) :
    ∃ secs, build_reactive_wave_section num fuel q uv wn = .ok (.inl secs) ∧
      w = assembleWave q wn secs := by
  unfold Wave wave_sections_of at h
  rw [hr] at h
  simp only [] at h
  rcases except_map_eq_ok.mp h with ⟨secs, hs, hw⟩
  cases hbr : build_reactive_wave_section num fuel q uv wn with
  | error e => rw [hbr] at hs; cases hs
  | ok res =>
    rw [hbr] at hs
    cases res with
    | inl l =>
      simp only [Except.ok.injEq] at hs
      subst hs
      exact ⟨l, rfl, hw.symm⟩
    | inr c => cases hs

/-- Characterization of the precursor branch of
build_reactive_wave_section: for a reactive EOS, a wavenumber other than
1, a target at or below the known pressure and a known temperature below
ignition, a successful build necessarily went through the bracket check,
the (possibly once-doubled) bracket, the brentq search for the precursor
pressure, the Shock at that pressure, the in-place reset of the recorded
end state's progress variable, the Deflagration from the reset state, and
an optional trailing Rarefaction. -/
theorem build_reactive_precursor_spec
    {num : Numerics} {fuel : ℕ} {q : State} {r : Reactive} {p : ℚ} {wn : ℕ}
    {res : List WaveSectionT ⊕ WaveSectionT}
    (hr : q.eos.reactive = some r) (hwn : ¬wn = 1)
    (hp : ¬q.p < p) (ht : q.t < r.t_ignition)
    (hb : build_reactive_wave_section num fuel q (.scalar p) wn = .ok res) :
    ∃ (tmax pmax2 p0 : ℚ) (sRaw defl : WaveSectionT),
      ((tmax ≤ 0 ∧ pmax2 = 2 * q.p) ∨ (¬tmax ≤ 0 ∧ pmax2 = q.p)) ∧
      precursor_root num fuel q r.t_ignition wn q.p = .ok tmax ∧
      num.brentq (precursor_root num fuel q r.t_ignition wn) p pmax2 = .ok p0 ∧
      Shock num fuel q p0 wn = .ok sRaw ∧
      Deflagration num fuel { sRaw.q_end with q := q.q } p wn = .ok defl ∧
      ((∃ rf, Rarefaction num defl.q_end p wn = .ok rf ∧
          res = .inl [{ sRaw with q_end := { sRaw.q_end with q := q.q } }, defl, rf]) ∨
        res = .inl [{ sRaw with q_end := { sRaw.q_end with q := q.q } }, defl]) := by
  unfold build_reactive_wave_section at hb
  rw [hr] at hb
  simp only [] at hb
  rw [if_neg hwn] at hb
  rw [if_neg hp, if_pos ht] at hb
  rcases except_bind_eq_ok.mp hb with ⟨tmin, h1, hb⟩
  rcases except_bind_eq_ok.mp hb with ⟨tmax, h2, hb⟩
  split at hb
  · cases hb
  · by_cases htm : tmax ≤ 0
    · rw [if_pos htm] at hb
      rw [if_pos htm] at hb
      rcases except_bind_eq_ok.mp hb with ⟨t2, h3, hb⟩
      rcases except_bind_eq_ok.mp hb with ⟨p0, h4, hb⟩
      rcases except_bind_eq_ok.mp hb with ⟨sRaw, h5, hb⟩
      rcases except_bind_eq_ok.mp hb with ⟨defl, h6, hb⟩
      refine ⟨tmax, 2 * q.p, p0, sRaw, defl, Or.inl ⟨htm, rfl⟩, h2, h4, h5, h6, ?_⟩
      split at hb
      · rcases except_bind_eq_ok.mp hb with ⟨rf, h7, hb⟩
        cases hb
        exact Or.inl ⟨rf, h7, rfl⟩
      · cases hb
        exact Or.inr rfl
    · rw [if_neg htm] at hb
      rw [if_neg htm] at hb
      rcases except_bind_eq_ok.mp hb with ⟨t2, h3, hb⟩
      rcases except_bind_eq_ok.mp hb with ⟨p0, h4, hb⟩
      rcases except_bind_eq_ok.mp hb with ⟨sRaw, h5, hb⟩
      rcases except_bind_eq_ok.mp hb with ⟨defl, h6, hb⟩
      refine ⟨tmax, q.p, p0, sRaw, defl, Or.inr ⟨htm, rfl⟩, h2, h4, h5, h6, ?_⟩
      split at hb
      · rcases except_bind_eq_ok.mp hb with ⟨rf, h7, hb⟩
        cases hb
        exact Or.inl ⟨rf, h7, rfl⟩
      · cases hb
        exact Or.inr rfl

/-- C2.  Reactive composition below ignition: a successfully constructed
reactive Wave (wavenumber 0 or 2, target at or below the known pressure,
known temperature below ignition), under the root-finder contract that
brentq returns a root of the function it is given, consists of exactly a
precursor Shock followed by a Deflagration and, optionally, a trailing
Rarefaction.  The precursor's target pressure p0 is the brentq root of
precursor_root over the (possibly once-doubled) bracket, the post-shock
temperature at p0 equals the ignition temperature, the stored precursor
section is the constructed Shock with its end state's reactive progress
variable reset to the known state's, and that reset state is the start
state of the Deflagration. -/
theorem c2_reactive_precursor_composition :
    ∀ (num : Numerics) (fuel : ℕ) (q : State) (r : Reactive) (p : ℚ) (wn : ℕ) (w : WaveT),
      q.eos.reactive = some r →
      (wn = 0 ∨ wn = 2) →
      ¬q.p < p →
      q.t < r.t_ignition →
      (∀ a b p0, num.brentq (precursor_root num fuel q r.t_ignition wn) a b = .ok p0 →
        precursor_root num fuel q r.t_ignition wn p0 = .ok 0) →
      Wave num fuel q (.scalar p) wn = .ok w →
      ∃ (pmax2 p0 : ℚ) (sRaw defl : WaveSectionT) (rest : List WaveSectionT),
        (pmax2 = q.p ∨ pmax2 = 2 * q.p) ∧
        num.brentq (precursor_root num fuel q r.t_ignition wn) p pmax2 = .ok p0 ∧
        Shock num fuel q p0 wn = .ok sRaw ∧
        sRaw.kind = .shock ∧
        sRaw.q_end.t = r.t_ignition ∧
        Deflagration num fuel { sRaw.q_end with q := q.q } p wn = .ok defl ∧
        defl.kind = .deflagration ∧
        defl.q_start = { sRaw.q_end with q := q.q } ∧
        w.wave_sections = { sRaw with q_end := { sRaw.q_end with q := q.q } } :: defl :: rest ∧
        (rest = [] ∨ ∃ rf, rest = [rf] ∧ rf.kind = .rarefaction) := by
  intro num fuel q r p wn w hr hwn hp ht hroot hW
  obtain ⟨secs, hbr, hw⟩ := wave_ok_reactive_inl hr hW
  have hwn1 : ¬wn = 1 := by rcases hwn with h | h <;> simp [h]
  obtain ⟨tmax, pmax2, p0, sRaw, defl, hpm, h2, h4, h5, h6, htail⟩ :=
    build_reactive_precursor_spec hr hwn1 hp ht hbr
  have hze : precursor_root num fuel q r.t_ignition wn p0 =
      .ok (sRaw.q_end.t - r.t_ignition) := by
    unfold precursor_root
    rw [h5]
    rfl
  have hz := hroot p pmax2 p0 h4
  rw [hze] at hz
  have htemp : sRaw.q_end.t = r.t_ignition := by
    have := Except.ok.inj hz
    linarith [sub_eq_zero.mp this]
  have hsecs : w.wave_sections = secs := by rw [hw]; rfl
  rcases htail with ⟨rf, h7, hres⟩ | hres
  · refine ⟨pmax2, p0, sRaw, defl, [rf], ?_, h4, h5, (Shock_ok_fields h5).1, htemp, h6,
      (Deflagration_ok_fields h6).1, (Deflagration_ok_fields h6).2, ?_, ?_⟩
    · rcases hpm with ⟨_, hpe⟩ | ⟨_, hpe⟩
      · exact Or.inr hpe
      · exact Or.inl hpe
    · rw [hsecs]
      exact Sum.inl.inj hres
    · exact Or.inr ⟨rf, rfl, (Rarefaction_ok_fields h7).1⟩
  · refine ⟨pmax2, p0, sRaw, defl, [], ?_, h4, h5, (Shock_ok_fields h5).1, htemp, h6,
      (Deflagration_ok_fields h6).1, (Deflagration_ok_fields h6).2, ?_, Or.inl rfl⟩
    · rcases hpm with ⟨_, hpe⟩ | ⟨_, hpe⟩
      · exact Or.inr hpe
      · exact Or.inl hpe
    · rw [hsecs]
      exact Sum.inl.inj hres

/-- C2 witness: the concrete below-ignition reactive pipeline, with the
root-finder contract discharged for the concrete brentq (which always
reports 3/4, an exact root of the concrete precursor_root). -/
theorem c2_witness :
    (∃ (pmax2 p0 : ℚ) (sRaw defl : WaveSectionT) (rest : List WaveSectionT),
      (pmax2 = cq.p ∨ pmax2 = 2 * cq.p) ∧
      cnum.brentq (precursor_root cnum 0 cq reactInfo.t_ignition 2) (1 / 2) pmax2 = .ok p0 ∧
      Shock cnum 0 cq p0 2 = .ok sRaw ∧
      sRaw.kind = .shock ∧
      sRaw.q_end.t = reactInfo.t_ignition ∧
      Deflagration cnum 0 { sRaw.q_end with q := cq.q } (1 / 2) 2 = .ok defl ∧
      defl.kind = .deflagration ∧
      defl.q_start = { sRaw.q_end with q := cq.q } ∧
      cW9.wave_sections = { sRaw with q_end := { sRaw.q_end with q := cq.q } } :: defl :: rest ∧
      (rest = [] ∨ ∃ rf, rest = [rf] ∧ rf.kind = .rarefaction)) ∧
    cW9.wave_sections.map (fun s => s.kind) = [Kind.shock, Kind.deflagration] := by
  constructor
  · exact c2_reactive_precursor_composition cnum 0 cq reactInfo (1 / 2) 2 cW9
      (by with_unfolding_all rfl)
      (Or.inr rfl)
      (by with_unfolding_all decide)
      (by with_unfolding_all decide)
      (fun a b p0 hb => by
        have hp0 : p0 = 3 / 4 := (Except.ok.inj hb).symm
        subst hp0
        with_unfolding_all rfl)
      (by with_unfolding_all rfl)
  · with_unfolding_all rfl

/-- C9 counterexample: composing the concrete reactive wave stores, as
the precursor Shock section, a section whose recorded end state differs
from the end state the Shock constructor produced at the same target
pressure — build_reactive_wave_section overwrites the aliased end
state's reactive progress variable in place after the section is built
(wave.py line 553), so "the recorded end state (including its reactive
progress variable) is unchanged after that section is built" is false. -/
theorem c9_counterexample_precursor_end_state_mutated :
    Wave cnum 0 cq (.scalar (1 / 2)) 2 = .ok cW9 ∧
    Shock cnum 0 cq (3 / 4) 2 = .ok cS9raw ∧
    cW9.wave_sections.head? = some cS9stored ∧
    cS9stored = { cS9raw with q_end := { cS9raw.q_end with q := cq.q } } ∧
    cS9stored.q_end.q = cq.q ∧
    cS9raw.q_end.q ≠ cq.q ∧
    cS9stored.q_end ≠ cS9raw.q_end := by
  refine ⟨by with_unfolding_all rfl, by with_unfolding_all rfl, by with_unfolding_all rfl,
    rfl, by with_unfolding_all rfl, by with_unfolding_all decide, ?_⟩
  intro h
  exact absurd (congrArg State.q h) (by with_unfolding_all decide)

/-- C9 as amended: every wave-section constructor records its supplied
start state unchanged (and a Contact both of its states), so the inputs
are never mutated; the single in-place State mutation in the core is the
reactive precursor reset — the first section of a precursor composition
is exactly the constructed Shock with its end state's reactive progress
variable overwritten by the known state's value. -/
theorem c9_state_mutation_amended :
    (∀ (num : Numerics) (fuel : ℕ) (qs : State) (p : ℚ) (wn : ℕ) (s : WaveSectionT),
      Shock num fuel qs p wn = .ok s → s.q_start = qs) ∧
    (∀ (num : Numerics) (qs : State) (p : ℚ) (wn : ℕ) (s : WaveSectionT),
      Rarefaction num qs p wn = .ok s → s.q_start = qs) ∧
    (∀ (num : Numerics) (fuel : ℕ) (qs : State) (p : ℚ) (wn : ℕ) (s : WaveSectionT),
      Deflagration num fuel qs p wn = .ok s → s.q_start = qs) ∧
    (∀ (num : Numerics) (fuel : ℕ) (qs : State) (p : ℚ) (wn : ℕ) (s : WaveSectionT),
      Detonation num fuel qs p wn = .ok s → s.q_start = qs) ∧
    (∀ (num : Numerics) (q1 q2 : State) (wn : ℕ) (s : WaveSectionT),
      Contact num q1 q2 wn = .ok s → s.q_start = q1 ∧ s.q_end = q2) ∧
    (∀ (num : Numerics) (fuel : ℕ) (q : State) (r : Reactive) (p : ℚ) (wn : ℕ)
      (w : WaveT) (s0 : WaveSectionT) (rest : List WaveSectionT),
      q.eos.reactive = some r → ¬wn = 1 → ¬q.p < p → q.t < r.t_ignition →
      Wave num fuel q (.scalar p) wn = .ok w →
      w.wave_sections = s0 :: rest →
      ∃ (p0 : ℚ) (sRaw : WaveSectionT), Shock num fuel q p0 wn = .ok sRaw ∧
        s0 = { sRaw with q_end := { sRaw.q_end with q := q.q } }) := by
  refine ⟨fun _ _ _ _ _ _ h => (Shock_ok_fields h).2,
          fun _ _ _ _ _ h => (Rarefaction_ok_fields h).2,
          fun _ _ _ _ _ _ h => (Deflagration_ok_fields h).2,
          fun _ _ _ _ _ _ h => (Detonation_ok_fields h).2,
          fun _ _ _ _ _ h => ⟨(Contact_ok_fields h).2.1, (Contact_ok_fields h).2.2⟩,
          ?_⟩
  intro num fuel q r p wn w s0 rest hr hwn1 hp ht hW hsec
  obtain ⟨secs, hbr, hw⟩ := wave_ok_reactive_inl hr hW
  obtain ⟨tmax, pmax2, p0, sRaw, defl, hpm, h2, h4, h5, h6, htail⟩ :=
    build_reactive_precursor_spec hr hwn1 hp ht hbr
  have hsecs : w.wave_sections = secs := by rw [hw]; rfl
  rw [hsecs] at hsec
  rcases htail with ⟨rf, h7, hres⟩ | hres
  · rw [Sum.inl.inj hres] at hsec
    exact ⟨p0, sRaw, h5, ((List.cons.inj hsec.symm).1)⟩
  · rw [Sum.inl.inj hres] at hsec
    exact ⟨p0, sRaw, h5, ((List.cons.inj hsec.symm).1)⟩

/-- C9 witness for the amended statement: the constructors record the
concrete known state unchanged, and the concrete composed wave's first
section is a Shock-constructed section with only the progress variable of
its end state replaced. -/
theorem c9_witness :
    cS9raw.q_start = cq ∧
    (∃ (p0 : ℚ) (sRaw : WaveSectionT), Shock cnum 0 cq p0 2 = .ok sRaw ∧
      cS9stored = { sRaw with q_end := { sRaw.q_end with q := cq.q } }) := by
  constructor
  · exact c9_state_mutation_amended.1 cnum 0 cq (3 / 4) 2 cS9raw (by with_unfolding_all rfl)
  · exact c9_state_mutation_amended.2.2.2.2.2 cnum 0 cq reactInfo (1 / 2) 2 cW9 cS9stored
      [cDefl9]
      (by with_unfolding_all rfl) (by decide) (by with_unfolding_all decide)
      (by with_unfolding_all decide) (by with_unfolding_all rfl) (by with_unfolding_all rfl)

/-- C3 witness: the concrete ignited state driven to a target pressure
above its own, with burned sound speed zero, enters the CJ branch and
fails with AttributeError. -/
theorem c3_witness : Detonation cnum 0 cq3 2 2 = .error .attributeError := by
  exact c3_detonation_cj_attribute_error cnum 0 cq3 2 2 react3 cmfr3 (3 / 4)
    (by with_unfolding_all rfl)
    (Or.inr rfl)
    (by with_unfolding_all decide)
    (by with_unfolding_all decide)
    (by with_unfolding_all rfl)
    (by with_unfolding_all rfl)
    (by with_unfolding_all decide)
    (by with_unfolding_all rfl)

end R3D2
